import Mathlib

/-!
Shallow embedding of the orpheus-machine backend's job orchestration core:
the durable job store (`Database`), the dual-store status manager
(`JobManager` over Postgres + Redis), the song resolver
(`Database.findSongsByTitlesWithAllVersions`), and the pipeline orchestrator
(`MusicService.generateMusic` together with the `/generate` route's
background rejection handler).

External collaborators (Postgres, Redis, S3, the ML service, the file
store) enter the model as environment-provided outcomes: each remote call
is represented by the `Except`-valued result the TypeScript `await` would
produce, and stateful stores are modelled as explicit state records scoped
to a single job id.
-/

namespace Orpheus

/-- Job status enum of the `jobs` table (`valid_status` check constraint). -/
inductive Status where
  | pending
  | processing
  | completed
  | failed
deriving DecidableEq

/-- A row of the `songs` table (the dual-asset-reference schema variant of
`database.ts`): id, MIDI asset key, optional token asset key, artist, title.
Timestamps are omitted as no modelled query reads them. -/
structure Song where
  id : String
  midi_s3_key : String
  token_s3_key : Option String
  artist : String
  title : String
deriving DecidableEq

/-- A row of the `jobs` table, as read and written by `Database`.
Timestamps are modelled as `Nat`. -/
structure JobRow where
  job_id : String
  status : Status
  progress : Nat
  songs : List String
  created_at : Nat
  completed_at : Option Nat
  output_file_id : Option String
  error_message : Option String
deriving DecidableEq

/-- ASCII lowercasing of one character: the action of SQL `LOWER(...)` and
JavaScript `toLowerCase()` on the ASCII range the catalog titles use. -/
def lowerChar (c : Char) : Char :=
  if 'A' ≤ c ∧ c ≤ 'Z' then Char.ofNat (c.toNat + 32) else c

/-- ASCII lowercasing of a string (SQL `LOWER`, JS `toLowerCase`). -/
def lowerStr (s : String) : String := String.mk (s.data.map lowerChar)

/-- Byte-wise lexicographic comparison on character lists, the order
backing the SQL `ORDER BY title` clauses. -/
def charsLe : List Char → List Char → Bool
  | [], _ => true
  | _ :: _, [] => false
  | a :: as, b :: bs => if a < b then true else if b < a then false else charsLe as bs

/-- Lexicographic `≤` on strings, used for `ORDER BY title`. -/
def strLe (a b : String) : Bool := charsLe a.data b.data

/-- Insert a song into a title-sorted list (helper for `sortByTitle`). -/
def insertByTitle (s : Song) : List Song → List Song
  | [] => [s]
  | t :: ts => if strLe s.title t.title then s :: t :: ts else t :: insertByTitle s ts

/-- Stable sort by title: the SQL `ORDER BY title;` of the version-match
query in `findSongsByTitlesWithAllVersions`. -/
def sortByTitle (l : List Song) : List Song := l.foldr insertByTitle []

/-- The SQL expression REGEXP_REPLACE(x, the pattern dot-digits-end, '') used
by the version queries: strips one trailing "." followed by one or more
digits; strings not of that shape are returned unchanged. -/
def stripVersionSuffix (s : String) : String :=
  let rev := s.data.reverse
  let digits := rev.takeWhile Char.isDigit
  let rest := rev.drop digits.length
  match digits, rest with
  | [], _ => s
  | _ :: _, '.' :: rest2 => String.mk rest2.reverse
  | _ :: _, _ => s

/-- Duplicate removal by song id, keeping the first occurrence of each id:
the `allSongs.filter((song, index, arr) => arr.findIndex(...) === index)`
idiom of `Database.findSongsByTitlesWithAllVersions`. -/
def dedupeById (l : List Song) : List Song :=
  l.foldl (fun acc s => if acc.any (fun t => t.id == s.id) then acc else acc ++ [s]) []

/-- Body of the per-title loop of `Database.findSongsByTitlesWithAllVersions`:
the rows one requested title contributes to `allSongs`. First the exact
case-insensitive title match (`SELECT * FROM songs WHERE LOWER(title) =
LOWER($1)`, no ORDER BY, table order); only when that returns no rows, the
base-title version match (`REGEXP_REPLACE(LOWER(title), dot-digits-end, '')
= LOWER($1) ORDER BY title`); when both are empty nothing is pushed. -/
def rowsForTitle (catalog : List Song) (songTitle : String) : List Song :=
  let exact := catalog.filter (fun s => lowerStr s.title == lowerStr songTitle)
  if exact.length > 0 then
    exact
  else
    let versions := sortByTitle (catalog.filter
      (fun s => stripVersionSuffix (lowerStr s.title) == lowerStr songTitle))
    if versions.length > 0 then versions else []

/-- `Database.findSongsByTitlesWithAllVersions(songTitles)` over an explicit
catalog (the `songs` table contents in table order): the per-title rows are
accumulated over the requested titles in order (`allSongs.push(...)` in the
`for` loop) and then deduplicated by id. -/
def findSongsByTitlesWithAllVersions (catalog : List Song) (songTitles : List String) :
    List Song :=
  let allSongs := songTitles.foldl (fun acc songTitle => acc ++ rowsForTitle catalog songTitle) []
  dedupeById allSongs

/-- The UPDATE of `Database.updateJobStatus(jobId, status, progress,
errorMessage?, outputFileId?)` applied to the matching `jobs` row: sets
status, progress, error_message, output_file_id and completed_at
unconditionally, with `completed_at = status === 'completed' ? new Date() :
null`. `now` stands for `new Date()`. -/
def dbUpdateJobStatus (row : JobRow) (status : Status) (progress : Nat)
    (errorMessage : Option String) (outputFileId : Option String) (now : Nat) : JobRow :=
  { row with
    status := status
    progress := progress
    error_message := errorMessage
    output_file_id := outputFileId
    completed_at := if status = Status.completed then some now else none }

/-- The JSON job snapshot kept under the Redis key `job:<jobId>`
(the `jobData` / `updatedJob` objects of `jobManager.ts`). -/
structure CachedJob where
  jobId : String
  status : Status
  progress : Nat
  songs : List String
  createdAt : Nat
  completedAt : Option Nat
  outputFileId : Option String
  error : Option String
deriving DecidableEq

/-- The `JobStatusResponse` shape returned by `JobManager.getJobStatus`. -/
structure JobStatusResponse where
  jobId : String
  status : Status
  progress : Nat
  songs : List String
  createdAt : Nat
  completedAt : Option Nat
  outputFileId : Option String
  error : Option String
deriving DecidableEq

/-- `JobManager.formatJobResponse(jobData)`: field-for-field projection of a
cached snapshot into the response shape. -/
def formatJobResponse (jobData : CachedJob) : JobStatusResponse :=
  { jobId := jobData.jobId
    status := jobData.status
    progress := jobData.progress
    songs := jobData.songs
    createdAt := jobData.createdAt
    completedAt := jobData.completedAt
    outputFileId := jobData.outputFileId
    error := jobData.error }

/-- The snapshot `JobManager.getJobStatus` builds from a durable row on a
cache miss before repopulating the cache. -/
def snapshotOfRow (row : JobRow) : CachedJob :=
  { jobId := row.job_id
    status := row.status
    progress := row.progress
    songs := row.songs
    createdAt := row.created_at
    completedAt := row.completed_at
    outputFileId := row.output_file_id
    error := row.error_message }

/-- The `updatedJob` object of `JobManager.updateJobStatus`: spread of the
cached snapshot with status/progress/error/outputFileId overwritten, and
completedAt added only when the new status is completed (otherwise the
previously cached value is kept by the spread). -/
def cacheUpdatedJob (cached : CachedJob) (status : Status) (progress : Nat)
    (errorMessage : Option String) (outputFileId : Option String) (now : Nat) : CachedJob :=
  { cached with
    status := status
    progress := progress
    error := errorMessage
    outputFileId := outputFileId
    completedAt := if status = Status.completed then some now else cached.completedAt }

/-- Dual-store state for one job id: the durable `jobs` row (if any) and the
Redis entry under `job:<jobId>` (snapshot paired with the TTL in seconds it
was stored with). -/
structure StoreState where
  db : Option JobRow
  cache : Option (CachedJob × Nat)
deriving DecidableEq

/-- Failure injection for the remote calls made by one
`JobManager.updateJobStatus` invocation, plus the wall clock. -/
structure UpdEnv where
  dbUpdateFails : Bool
  cacheGetFails : Bool
  cacheSetFails : Bool
  now : Nat
deriving DecidableEq

/-- `JobManager.updateJobStatus(jobId, status, progress, errorMessage?,
outputFileId?)`: awaits `database.updateJobStatus` first; then
`redis.getJob`, and only if a cached entry exists, `redis.setJob` with the
merged snapshot (default TTL 86400 s). Every remote failure is logged and
rethrown (`throw error` in the catch), so the call returns the first
failure; state reflects all writes performed before that failure. -/
def jmUpdateJobStatus (st : StoreState) (env : UpdEnv) (status : Status) (progress : Nat)
    (errorMessage : Option String) (outputFileId : Option String) :
    StoreState × Except String Unit :=
  if env.dbUpdateFails then (st, Except.error "database update failed")
  else
    let newDb := st.db.map
      (fun row => dbUpdateJobStatus row status progress errorMessage outputFileId env.now)
    let st1 : StoreState := { st with db := newDb }
    if env.cacheGetFails then (st1, Except.error "redis get failed")
    else
      match st1.cache with
      | none => (st1, Except.ok ())
      | some (cached, _) =>
        if env.cacheSetFails then (st1, Except.error "redis set failed")
        else
          let merged := cacheUpdatedJob cached status progress errorMessage outputFileId env.now
          ({ st1 with cache := some (merged, 86400) }, Except.ok ())

/-- Outcome of `JobManager.getJobStatus`: the store state after the call,
the response (`null` modelled as `none`), and whether the durable store was
read. -/
structure GetStatusResult where
  state : StoreState
  response : Option JobStatusResponse
  dbRead : Bool
deriving DecidableEq

/-- `JobManager.getJobStatus(jobId)` (remote calls assumed available, as the
method rethrows any store failure): `redis.getJob` first and, on a hit,
return the formatted cached snapshot without touching the database; on a
miss, `database.getJob`; `null` row gives `null`; otherwise build the
snapshot, `redis.setJob` it with the default 86400 s TTL, and return it. -/
def getJobStatus (st : StoreState) : GetStatusResult :=
  match st.cache with
  | some (cached, _) => { state := st, response := some (formatJobResponse cached), dbRead := false }
  | none =>
    match st.db with
    | none => { state := st, response := none, dbRead := true }
    | some row =>
      let jobData := snapshotOfRow row
      { state := { st with cache := some (jobData, 86400) }
        response := some (formatJobResponse jobData)
        dbRead := true }

/-- `JobManager.cancelJob(jobId)`: `database.getJob`; missing row throws
"Job not found"; a completed or failed row throws before any write; else
delegates to `updateJobStatus(jobId, 'failed', job.progress,
'Job cancelled by user')`. -/
def cancelJob (st : StoreState) (env : UpdEnv) : StoreState × Except String Unit :=
  match st.db with
  | none => (st, Except.error "Job not found")
  | some job =>
    if job.status = Status.completed ∨ job.status = Status.failed then
      (st, Except.error "Cannot cancel completed or failed job")
    else
      jmUpdateJobStatus st env Status.failed job.progress (some "Job cancelled by user") none

/-- Opaque binary buffer (MIDI or MP3 content); the pipeline never inspects
buffer contents. -/
abbrev Buf := Nat

/-- One `jobManager.updateJobStatus` call issued by the pipeline or the
route's rejection handler: the status, progress, errorMessage and
outputFileId arguments of that call. -/
structure WriteEvent where
  status : Status
  progress : Nat
  errorMessage : Option String
  outputFileId : Option String
deriving DecidableEq

/-- Environment of one `MusicService.generateMusic(jobId, songTitles)` run:
the outcome each external call would produce. `resolveResult` is the
outcome of `findSongFiles` (the catalog search including its fuzzy
fallback, wrapped error message included); `downloadResult` maps a song to
its `s3Service.downloadFile(song.midi_s3_key)` outcome; `mlResult`,
`mp3Result` and `saveResult` are the `mlService.generateMusic`,
`mlService.convertMidiToMp3` and `fileService.saveGeneratedFile` outcomes;
`freshId` is the `uuidv4()` output file id. -/
structure GenEnv where
  resolveResult : Except String (List Song)
  downloadResult : Song → Except String Buf
  mlResult : Except String Buf
  mp3Result : Except String Buf
  saveResult : Except String String
  freshId : String

/-- Collect a list of settled outcomes as `Promise.all` does: the first
rejection rejects the whole batch. -/
def collectAll : List (Except String Buf) → Except String (List Buf)
  | [] => Except.ok []
  | Except.error e :: _ => Except.error e
  | Except.ok b :: rest =>
    match collectAll rest with
    | Except.ok bs => Except.ok (b :: bs)
    | Except.error e => Except.error e

/-- `MusicService.downloadMidiFiles(songs)`: `Promise.all` over per-song S3
downloads; any failure is caught and rethrown as the fixed message. -/
def downloadMidiFiles (env : GenEnv) (songs : List Song) : Except String (List Buf) :=
  match collectAll (songs.map env.downloadResult) with
  | Except.ok bufs => Except.ok bufs
  | Except.error _ => Except.error "Failed to download MIDI files from S3"

/-- The status write issued by the catch of `MusicService.generateMusic`
and by the `/generate` route's rejection handler:
`updateJobStatus(jobId, 'failed', 0, message)`. -/
def failedWrite (msg : String) : WriteEvent :=
  { status := Status.failed, progress := 0, errorMessage := some msg, outputFileId := none }

/-- A checkpoint write `updateJobStatus(jobId, 'processing', p)`. -/
def checkpointWrite (p : Nat) : WriteEvent :=
  { status := Status.processing, progress := p, errorMessage := none, outputFileId := none }

/-- `MusicService.generateMusic(jobId, songTitles)` as the sequence of
`jobManager.updateJobStatus` calls it issues and its exceptional outcome
(the function rethrows the caught error after writing the failure).
Stage structure follows the source: processing/10; `findSongFiles`;
processing/30; throw "No MIDI files found for the provided songs" when zero
songs; `downloadMidiFiles`; processing/50; ML generation; processing/80;
MIDI-to-MP3; processing/95; save file; completed/100 with the fresh output
file id. The catch appends `failedWrite` of the error's message. -/
def generateMusic (env : GenEnv) : List WriteEvent × Except String Unit :=
  let w1 := [checkpointWrite 10]
  match env.resolveResult with
  | Except.error msg => (w1 ++ [failedWrite msg], Except.error msg)
  | Except.ok songs =>
    let w2 := w1 ++ [checkpointWrite 30]
    if songs.length = 0 then
      let msg := "No MIDI files found for the provided songs"
      (w2 ++ [failedWrite msg], Except.error msg)
    else
      match downloadMidiFiles env songs with
      | Except.error msg => (w2 ++ [failedWrite msg], Except.error msg)
      | Except.ok _midiFiles =>
        let w3 := w2 ++ [checkpointWrite 50]
        match env.mlResult with
        | Except.error msg => (w3 ++ [failedWrite msg], Except.error msg)
        | Except.ok _generatedMidi =>
          let w4 := w3 ++ [checkpointWrite 80]
          match env.mp3Result with
          | Except.error msg => (w4 ++ [failedWrite msg], Except.error msg)
          | Except.ok _mp3 =>
            let w5 := w4 ++ [checkpointWrite 95]
            match env.saveResult with
            | Except.error msg => (w5 ++ [failedWrite msg], Except.error msg)
            | Except.ok _outputPath =>
              (w5 ++ [{ status := Status.completed, progress := 100,
                        errorMessage := none, outputFileId := some env.freshId }],
               Except.ok ())

/-- The background execution launched by `router.post('/generate')`:
`musicService.generateMusic(jobId, songs).catch(...)`, whose handler logs
and issues `updateJobStatus(jobId, 'failed', 0, error.message)`. The result
is the full sequence of status writes; no exception escapes the handler. -/
def startBackgroundRun (env : GenEnv) : List WriteEvent :=
  match generateMusic env with
  | (trace, Except.ok _) => trace
  | (trace, Except.error msg) => trace ++ [failedWrite msg]

/-- The progress values durably written over one job's lifetime: 0 from
`JobManager.createJob` (the row is inserted with the progress column's
default 0), then the progress argument of each background status write. -/
def progressTrace (env : GenEnv) : List Nat :=
  0 :: (startBackgroundRun env).map WriteEvent.progress

/-- Catalog row titled "Fugue" (exact-match fixture). -/
def fugueExact : Song :=
  { id := "id1", midi_s3_key := "k1", token_s3_key := none, artist := "Bach", title := "Fugue" }

/-- Catalog row titled "Fugue.1" (version-1 fixture). -/
def fugueV1 : Song :=
  { id := "id1", midi_s3_key := "k1", token_s3_key := none, artist := "Bach", title := "Fugue.1" }

/-- Catalog row titled "Fugue.2" (version-2 fixture). -/
def fugueV2 : Song :=
  { id := "id2", midi_s3_key := "k2", token_s3_key := none, artist := "Bach", title := "Fugue.2" }

/-- Pipeline environment in which the ML generation call (stage 4) fails
and every other external call would succeed. -/
def mlTimeoutEnv : GenEnv :=
  { resolveResult := Except.ok [fugueExact]
    downloadResult := fun _ => Except.ok 0
    mlResult := Except.error "ML timeout"
    mp3Result := Except.ok 0
    saveResult := Except.ok "outpath"
    freshId := "file-123" }

/-- Pipeline environment in which two songs resolve and every external call
succeeds. -/
def allOkEnv : GenEnv :=
  { resolveResult := Except.ok [fugueV1, fugueV2]
    downloadResult := fun _ => Except.ok 0
    mlResult := Except.ok 1
    mp3Result := Except.ok 2
    saveResult := Except.ok "outpath"
    freshId := "file-123" }

/-- A processing-state durable row fixture. -/
def row0 : JobRow :=
  { job_id := "j1", status := Status.processing, progress := 10, songs := ["A", "B", "C"]
    created_at := 0, completed_at := none, output_file_id := none, error_message := none }

/-- A completed durable row fixture. -/
def rowDone : JobRow :=
  { job_id := "j2", status := Status.completed, progress := 100, songs := ["A", "B", "C"]
    created_at := 0, completed_at := some 9, output_file_id := some "file-123"
    error_message := none }

/-- Dual-store state fixture: durable row present, cache entry present. -/
def st0 : StoreState := { db := some row0, cache := some (snapshotOfRow row0, 86400) }

/-- Dual-store state fixture: durable row present, cache entry absent. -/
def stMiss : StoreState := { db := some row0, cache := none }

/-- Dual-store state fixture: job absent from both stores. -/
def stEmpty : StoreState := { db := none, cache := none }

/-- Update environment in which only the Redis `setJob` call fails. -/
def envCacheSetFail : UpdEnv :=
  { dbUpdateFails := false, cacheGetFails := false, cacheSetFails := true, now := 5 }

/-- Update environment in which every store call succeeds. -/
def envAllOk : UpdEnv :=
  { dbUpdateFails := false, cacheGetFails := false, cacheSetFails := false, now := 5 }

/-- A failed durable row fixture carrying a stored error message. -/
def rowFailed : JobRow :=
  { job_id := "j3", status := Status.failed, progress := 0, songs := ["A", "B", "C"]
    created_at := 0, completed_at := none, output_file_id := none
    error_message := some "boom" }

/-- Dual-store state fixture: completed durable row, no cache entry. -/
def stDone : StoreState := { db := some rowDone, cache := none }

/-- The trace of a fully successful pipeline run. -/
def successTrace (fid : String) : List WriteEvent :=
  [checkpointWrite 10, checkpointWrite 30, checkpointWrite 50, checkpointWrite 80,
   checkpointWrite 95,
   { status := Status.completed, progress := 100, errorMessage := none,
     outputFileId := some fid }]

/-- A list of progress values is monotonically non-decreasing. -/
def nonDecreasing : List Nat → Bool
  | [] => true
  | [_] => true
  | a :: b :: rest => decide (a ≤ b) && nonDecreasing (b :: rest)

/-! Helper lemmas about the resolver's sorting, accumulation and
deduplication. -/

theorem mem_insertByTitle {x s : Song} {l : List Song} :
    x ∈ insertByTitle s l ↔ x = s ∨ x ∈ l := by
  induction l with
  | nil => simp [insertByTitle]
  | cons t ts ih =>
    simp only [insertByTitle]
    split
    · simp
    · simp only [List.mem_cons, ih]
      tauto

theorem mem_sortByTitle {x : Song} : ∀ {l : List Song}, x ∈ sortByTitle l ↔ x ∈ l := by
  intro l
  induction l with
  | nil => simp [sortByTitle]
  | cons t ts ih =>
    show x ∈ insertByTitle t (sortByTitle ts) ↔ _
    rw [mem_insertByTitle, ih]
    simp

theorem rowsForTitle_subset {catalog : List Song} {songTitle : String} {y : Song}
    (h : y ∈ rowsForTitle catalog songTitle) : y ∈ catalog := by
  simp only [rowsForTitle] at h
  split at h
  · exact List.mem_of_mem_filter h
  · split at h
    · exact List.mem_of_mem_filter (mem_sortByTitle.mp h)
    · simp at h

theorem foldl_append_eq_join (g : String → List Song) :
    ∀ (titles : List String) (acc : List Song),
      titles.foldl (fun acc t => acc ++ g t) acc = acc ++ (titles.map g).flatten := by
  intro titles
  induction titles with
  | nil => intro acc; simp
  | cons t ts ih =>
    intro acc
    rw [List.foldl_cons, ih]
    simp

theorem findSongs_eq (catalog : List Song) (titles : List String) :
    findSongsByTitlesWithAllVersions catalog titles =
      dedupeById ((titles.map (rowsForTitle catalog)).flatten) := by
  unfold findSongsByTitlesWithAllVersions
  rw [foldl_append_eq_join (rowsForTitle catalog) titles []]
  rfl

theorem dedupe_foldl_acc_mem (x : Song) :
    ∀ (l acc : List Song), x ∈ acc →
      x ∈ l.foldl (fun acc s => if acc.any (fun t => t.id == s.id) then acc else acc ++ [s]) acc := by
  intro l
  induction l with
  | nil => intro acc h; simpa using h
  | cons s rest ih =>
    intro acc h
    rw [List.foldl_cons]
    apply ih
    split
    · exact h
    · exact List.mem_append_left _ h

theorem dedupe_foldl_subset (x : Song) :
    ∀ (l acc : List Song),
      x ∈ l.foldl (fun acc s => if acc.any (fun t => t.id == s.id) then acc else acc ++ [s]) acc →
      x ∈ acc ∨ x ∈ l := by
  intro l
  induction l with
  | nil => intro acc h; simp at h; exact Or.inl h
  | cons s rest ih =>
    intro acc h
    rw [List.foldl_cons] at h
    rcases ih _ h with h1 | h1
    · revert h1
      split
      · intro h1; exact Or.inl h1
      · intro h1
        rcases List.mem_append.mp h1 with h2 | h2
        · exact Or.inl h2
        · simp at h2; subst h2; exact Or.inr (List.mem_cons_self _ _)
    · exact Or.inr (List.mem_cons_of_mem _ h1)

theorem dedupe_foldl_cover (x : Song) :
    ∀ (l acc : List Song), x ∈ l →
      ∃ y ∈ l.foldl (fun acc s => if acc.any (fun t => t.id == s.id) then acc else acc ++ [s]) acc,
        y.id = x.id := by
  intro l
  induction l with
  | nil => intro acc h; simp at h
  | cons s rest ih =>
    intro acc h
    rw [List.foldl_cons]
    rcases List.mem_cons.mp h with h1 | h1
    · subst h1
      by_cases hany : acc.any (fun t => t.id == x.id) = true
      · obtain ⟨y, hy, hyid⟩ := List.any_eq_true.mp hany
        refine ⟨y, dedupe_foldl_acc_mem y rest _ ?_, by simpa using hyid⟩
        simp only [hany, if_true]
        exact hy
      · refine ⟨x, dedupe_foldl_acc_mem x rest _ ?_, rfl⟩
        simp only [hany, if_false]
        exact List.mem_append_right _ (List.mem_cons_self _ _)
    · exact ih _ h1

theorem mem_dedupeById_of_nodup {l catalog : List Song}
    (hsub : ∀ y ∈ l, y ∈ catalog) (hnodup : (catalog.map Song.id).Nodup)
    {x : Song} (hx : x ∈ l) (hxc : x ∈ catalog) : x ∈ dedupeById l := by
  obtain ⟨y, hy, hyid⟩ := dedupe_foldl_cover x l [] hx
  have hyl : y ∈ l := by
    rcases dedupe_foldl_subset y l [] hy with h | h
    · simp at h
    · exact h
  have hxy : y = x := List.inj_on_of_nodup_map hnodup (hsub y hyl) hxc hyid
  rw [hxy] at hy
  exact hy

/-- Exhaustive shape of a `generateMusic` run: either the full success trace
ending in the completed write, or a non-empty prefix of processing
checkpoints followed by the catch's `failedWrite` of the raised message. -/
theorem generateMusic_shape (env : GenEnv) :
    generateMusic env = (successTrace env.freshId, Except.ok ()) ∨
    ∃ msg cps, generateMusic env = (cps ++ [failedWrite msg], Except.error msg) ∧
      cps ≠ [] ∧ (∀ w ∈ cps, w.status = Status.processing) := by
  unfold generateMusic
  cases hres : env.resolveResult with
  | error msg =>
    right
    exact ⟨msg, [checkpointWrite 10], rfl, by simp, by simp [checkpointWrite]⟩
  | ok songs =>
    by_cases hlen : songs.length = 0
    · simp only [hlen, if_pos rfl]
      right
      exact ⟨"No MIDI files found for the provided songs",
        [checkpointWrite 10, checkpointWrite 30], rfl, by simp, by simp [checkpointWrite]⟩
    · simp only [if_neg hlen]
      cases hdl : downloadMidiFiles env songs with
      | error msg =>
        right
        exact ⟨msg, [checkpointWrite 10, checkpointWrite 30], rfl, by simp,
          by simp [checkpointWrite]⟩
      | ok bufs =>
        cases hml : env.mlResult with
        | error msg =>
          right
          exact ⟨msg, [checkpointWrite 10, checkpointWrite 30, checkpointWrite 50], rfl,
            by simp, by simp [checkpointWrite]⟩
        | ok gen =>
          cases hmp3 : env.mp3Result with
          | error msg =>
            right
            exact ⟨msg,
              [checkpointWrite 10, checkpointWrite 30, checkpointWrite 50, checkpointWrite 80],
              rfl, by simp, by simp [checkpointWrite]⟩
          | ok mp3 =>
            cases hsave : env.saveResult with
            | error msg =>
              right
              exact ⟨msg,
                [checkpointWrite 10, checkpointWrite 30, checkpointWrite 50, checkpointWrite 80,
                 checkpointWrite 95],
                rfl, by simp, by simp [checkpointWrite]⟩
            | ok outputPath =>
              left
              rfl

/-! Claim theorems. -/

/-- C7: given a catalog containing songs titled "Fugue.1" and "Fugue.2" and
no song titled exactly "Fugue", resolving the title list ["Fugue"] returns
both rows. -/
theorem fugue_version_expansion :
    findSongsByTitlesWithAllVersions [fugueV1, fugueV2] ["Fugue"] = [fugueV1, fugueV2] ∧
    fugueV1 ∈ findSongsByTitlesWithAllVersions [fugueV1, fugueV2] ["Fugue"] ∧
    fugueV2 ∈ findSongsByTitlesWithAllVersions [fugueV1, fugueV2] ["Fugue"] := by
  decide

/-- C3 counterexample: the catalog holds "Fugue" (id1) and "Fugue.2" (id2),
whose titles share the base title "fugue"; resolving ["Fugue"] finds the
case-insensitive exact match but returns only that row, omitting the other
row with the same base title — the claimed all-versions expansion does not
happen when an exact match exists. -/
theorem resolver_no_version_expansion_on_exact_match :
    lowerStr fugueExact.title = lowerStr "Fugue" ∧
    stripVersionSuffix (lowerStr fugueV2.title) =
      stripVersionSuffix (lowerStr fugueExact.title) ∧
    findSongsByTitlesWithAllVersions [fugueExact, fugueV2] ["Fugue"] = [fugueExact] ∧
    fugueV2 ∉ findSongsByTitlesWithAllVersions [fugueExact, fugueV2] ["Fugue"] := by
  decide

/-- C3 (amended): for every requested title for which a case-insensitive
exact title match exists in a catalog with unique song ids, the resolver's
result includes every exactly-matching row; rows merely sharing that
match's base title are not added when an exact match exists (see the
counterexample). -/
theorem resolver_exact_match_included (catalog : List Song) (titles : List String)
    (hnodup : (catalog.map Song.id).Nodup) (t : String) (ht : t ∈ titles)
    (s : Song) (hs : s ∈ catalog) (hmatch : lowerStr s.title = lowerStr t) :
    s ∈ findSongsByTitlesWithAllVersions catalog titles := by
  rw [findSongs_eq]
  have hfil : s ∈ catalog.filter (fun r => lowerStr r.title == lowerStr t) :=
    List.mem_filter.mpr ⟨hs, by simp [hmatch]⟩
  have hrows : s ∈ rowsForTitle catalog t := by
    simp only [rowsForTitle]
    rw [if_pos]
    · exact hfil
    · exact List.length_pos.mpr (List.ne_nil_of_mem hfil)
  have hjoin : s ∈ (titles.map (rowsForTitle catalog)).flatten :=
    List.mem_flatten.mpr ⟨rowsForTitle catalog t, List.mem_map_of_mem _ ht, hrows⟩
  refine mem_dedupeById_of_nodup ?_ hnodup hjoin hs
  intro y hy
  obtain ⟨block, hbm, hyb⟩ := List.mem_flatten.mp hy
  obtain ⟨t2, ht2, hblock⟩ := List.mem_map.mp hbm
  rw [← hblock] at hyb
  exact rowsForTitle_subset hyb

/-- C3 witness: the amended theorem applied to the counterexample catalog
includes the exactly-matching row. -/
theorem resolver_exact_match_included_witness :
    fugueExact ∈ findSongsByTitlesWithAllVersions [fugueExact, fugueV2] ["Fugue"] :=
  resolver_exact_match_included [fugueExact, fugueV2] ["Fugue"] (by decide) "Fugue"
    (by decide) fugueExact (by decide) (by decide)

/-- C10: every call to Database.updateJobStatus unconditionally overwrites
the error_message, output_file_id and completed_at columns with the passed
values (null when omitted): any non-completed status write sets
completed_at to null, and a processing checkpoint write (no error, no
output id) clears a previously stored error message and output file id. -/
theorem db_update_overwrites_columns (row : JobRow) (status : Status) (progress : Nat)
    (e o : Option String) (now : Nat) :
    (dbUpdateJobStatus row status progress e o now).error_message = e ∧
    (dbUpdateJobStatus row status progress e o now).output_file_id = o ∧
    (status ≠ Status.completed →
      (dbUpdateJobStatus row status progress e o now).completed_at = none) ∧
    (dbUpdateJobStatus row Status.processing progress none none now).error_message = none ∧
    (dbUpdateJobStatus row Status.processing progress none none now).output_file_id = none ∧
    (dbUpdateJobStatus row Status.processing progress none none now).completed_at = none := by
  refine ⟨rfl, rfl, ?_, rfl, rfl, by simp [dbUpdateJobStatus]⟩
  intro hnc
  simp [dbUpdateJobStatus, hnc]

/-- C10 witness: a processing checkpoint write over a failed row carrying a
stored error message clears the error, output id and completion time. -/
theorem db_update_overwrites_columns_witness :
    (dbUpdateJobStatus rowFailed Status.processing 10 none none 7).error_message = none ∧
    (dbUpdateJobStatus rowFailed Status.processing 10 none none 7).output_file_id = none ∧
    (dbUpdateJobStatus rowFailed Status.processing 10 none none 7).completed_at = none :=
  ⟨(db_update_overwrites_columns rowFailed Status.processing 10 none none 7).1,
   (db_update_overwrites_columns rowFailed Status.processing 10 none none 7).2.1,
   (db_update_overwrites_columns rowFailed Status.processing 10 none none 7).2.2.1 (by decide)⟩

/-- C9: cancelling a job whose current durable status is completed or
failed raises "Cannot cancel completed or failed job" and performs no
write: the dual-store state is returned unchanged. -/
theorem cancel_terminal_job_rejected_no_write (st : StoreState) (env : UpdEnv) (job : JobRow)
    (hdb : st.db = some job)
    (hterm : job.status = Status.completed ∨ job.status = Status.failed) :
    cancelJob st env = (st, Except.error "Cannot cancel completed or failed job") := by
  unfold cancelJob
  rw [hdb]
  simp [hterm]

/-- C9 witness: cancelling the completed fixture job is rejected with the
state unchanged. -/
theorem cancel_terminal_job_rejected_no_write_witness :
    cancelJob stDone envAllOk = (stDone, Except.error "Cannot cancel completed or failed job") :=
  cancel_terminal_job_rejected_no_write stDone envAllOk rowDone (by decide) (by decide)

/-- C5: JobManager.getJobStatus returns the formatted cached snapshot
without touching the durable store on a cache hit; on a cache miss it reads
the durable store and, when a row exists, populates the cache with the
bounded 86400-second TTL before returning the formatted snapshot; and when
the job exists in neither store it returns none, never a default record. -/
theorem get_job_status_cache_discipline (st : StoreState) :
    (∀ c ttl, st.cache = some (c, ttl) →
      getJobStatus st =
        { state := st, response := some (formatJobResponse c), dbRead := false }) ∧
    (st.cache = none → ∀ row, st.db = some row →
      getJobStatus st =
        { state := { st with cache := some (snapshotOfRow row, 86400) }
          response := some (formatJobResponse (snapshotOfRow row))
          dbRead := true }) ∧
    (st.cache = none → st.db = none →
      getJobStatus st = { state := st, response := none, dbRead := true }) := by
  refine ⟨?_, ?_, ?_⟩
  · intro c ttl hc
    unfold getJobStatus
    rw [hc]
  · intro hc row hrow
    unfold getJobStatus
    rw [hc, hrow]
  · intro hc hrow
    unfold getJobStatus
    rw [hc, hrow]

/-- C5 witness: the three read scenarios at concrete store states. -/
theorem get_job_status_cache_discipline_witness :
    getJobStatus st0 =
      { state := st0, response := some (formatJobResponse (snapshotOfRow row0))
        dbRead := false } ∧
    getJobStatus stMiss =
      { state := { stMiss with cache := some (snapshotOfRow row0, 86400) }
        response := some (formatJobResponse (snapshotOfRow row0)), dbRead := true } ∧
    getJobStatus stEmpty = { state := stEmpty, response := none, dbRead := true } :=
  ⟨(get_job_status_cache_discipline st0).1 (snapshotOfRow row0) 86400 rfl,
   (get_job_status_cache_discipline stMiss).2.1 rfl row0 rfl,
   (get_job_status_cache_discipline stEmpty).2.2 rfl rfl⟩

/-- C2 counterexample: with the durable write succeeding and a cache entry
present, a failing Redis set makes JobManager.updateJobStatus itself fail
(the cache error is rethrown, not swallowed), even though the durable row
was already updated. -/
theorem cache_write_failure_fails_update :
    (jmUpdateJobStatus st0 envCacheSetFail Status.processing 30 none none).2 =
      Except.error "redis set failed" ∧
    (jmUpdateJobStatus st0 envCacheSetFail Status.processing 30 none none).1.db =
      some (dbUpdateJobStatus row0 Status.processing 30 none none 5) :=
  ⟨rfl, rfl⟩

/-- C2 (amended): JobManager.updateJobStatus writes the durable record
first — whenever the database call succeeds, the durable row is updated
regardless of what the cache calls then do — and refreshes the cache entry
only when one already exists; but a cache write failure is rethrown and
fails the overall write call rather than being swallowed. -/
theorem update_status_durable_first_cache_failure_propagates
    (st : StoreState) (env : UpdEnv) (status : Status) (progress : Nat)
    (e o : Option String) (hdb : env.dbUpdateFails = false) :
    ((jmUpdateJobStatus st env status progress e o).1.db =
      st.db.map (fun row => dbUpdateJobStatus row status progress e o env.now)) ∧
    (st.cache = none → env.cacheGetFails = false →
      jmUpdateJobStatus st env status progress e o =
        ({ db := st.db.map (fun row => dbUpdateJobStatus row status progress e o env.now)
           cache := none }, Except.ok ())) ∧
    (env.cacheGetFails = false → env.cacheSetFails = true → st.cache ≠ none →
      (jmUpdateJobStatus st env status progress e o).2 =
        Except.error "redis set failed") := by
  refine ⟨?_, ?_, ?_⟩
  · by_cases hg : env.cacheGetFails
    · simp [jmUpdateJobStatus, hdb, hg]
    · cases hc : st.cache with
      | none => simp [jmUpdateJobStatus, hdb, hg, hc]
      | some p =>
        obtain ⟨cached, ttl⟩ := p
        by_cases hsf : env.cacheSetFails
        · simp [jmUpdateJobStatus, hdb, hg, hc, hsf]
        · simp [jmUpdateJobStatus, hdb, hg, hc, hsf]
  · intro hc hg
    simp [jmUpdateJobStatus, hdb, hg, hc]
  · intro hg hsf hc
    cases hcv : st.cache with
    | none => exact absurd hcv hc
    | some p =>
      obtain ⟨cached, ttl⟩ := p
      simp [jmUpdateJobStatus, hdb, hg, hsf, hcv]

/-- C2 witness: the amended theorem at the concrete cache-set-failure
scenario shows the durable row was updated first. -/
theorem update_status_durable_first_cache_failure_propagates_witness :
    (jmUpdateJobStatus st0 envCacheSetFail Status.processing 30 none none).1.db =
      st0.db.map
        (fun row => dbUpdateJobStatus row Status.processing 30 none none envCacheSetFail.now) :=
  (update_status_durable_first_cache_failure_propagates st0 envCacheSetFail Status.processing
    30 none none (by decide)).1

/-- C1 counterexample: when the stage-4 ML call fails, the failure is
recorded with progress 0 — no failed write carries the last checkpoint
value 50, contradicting the claim that progress is left at the last
successful checkpoint. -/
theorem pipeline_stage4_failure_not_checkpoint_progress :
    (startBackgroundRun mlTimeoutEnv).getLast? =
      some { status := Status.failed, progress := 0, errorMessage := some "ML timeout"
             outputFileId := none } ∧
    (∃ w ∈ startBackgroundRun mlTimeoutEnv, w.status = Status.failed) ∧
    ¬ ∃ w ∈ startBackgroundRun mlTimeoutEnv,
        w.status = Status.failed ∧ w.progress = 50 := by
  decide

/-- C1 (amended): when any stage of the background pipeline raises, the
run's status writes are a non-empty sequence of processing checkpoints
followed by the catch's write marking the job failed with the exception's
message as the stored error and progress reset to 0 (the catch passes
progress 0 rather than leaving the last checkpoint value); the rethrown
exception is absorbed by the submit route's rejection handler, which issues
the same failed write again, so nothing escapes the background
execution. -/
theorem pipeline_failure_marks_failed_progress_zero (env : GenEnv) (msg : String)
    (h : (generateMusic env).2 = Except.error msg) :
    ∃ cps, cps ≠ [] ∧ (∀ w ∈ cps, w.status = Status.processing) ∧
      (generateMusic env).1 = cps ++ [failedWrite msg] ∧
      startBackgroundRun env = cps ++ [failedWrite msg, failedWrite msg] ∧
      failedWrite msg =
        { status := Status.failed, progress := 0, errorMessage := some msg
          outputFileId := none } := by
  rcases generateMusic_shape env with hs | ⟨m, cps, heq, hne, hall⟩
  · rw [hs] at h
    simp at h
  · have hm : m = msg := by
      rw [heq] at h
      simpa using h
    subst hm
    refine ⟨cps, hne, hall, by rw [heq], ?_, rfl⟩
    unfold startBackgroundRun
    rw [heq]
    simp

/-- C1 witness: the amended theorem at the stage-4 failure environment. -/
theorem pipeline_failure_marks_failed_progress_zero_witness :
    ∃ cps, cps ≠ [] ∧ (∀ w ∈ cps, w.status = Status.processing) ∧
      (generateMusic mlTimeoutEnv).1 = cps ++ [failedWrite "ML timeout"] ∧
      startBackgroundRun mlTimeoutEnv =
        cps ++ [failedWrite "ML timeout", failedWrite "ML timeout"] ∧
      failedWrite "ML timeout" =
        { status := Status.failed, progress := 0, errorMessage := some "ML timeout"
          outputFileId := none } :=
  pipeline_failure_marks_failed_progress_zero mlTimeoutEnv "ML timeout" rfl

/-- C4 counterexample: the progress values written over the lifetime of the
stage-4-failure job are 0, 10, 30, 50, 0, 0 — not monotonically
non-decreasing, because the failure write resets progress to 0. -/
theorem progress_not_monotone_on_failure :
    progressTrace mlTimeoutEnv = [0, 10, 30, 50, 0, 0] ∧
    nonDecreasing (progressTrace mlTimeoutEnv) = false := by
  decide

/-- C4 (amended): on every background run that completes successfully, the
sequence of progress values written over the job's lifetime (0, 10, 30, 50,
80, 95, 100) is monotonically non-decreasing; a failing run breaks
monotonicity because its final write resets progress to 0 (see the
counterexample). -/
theorem progress_monotone_on_success (env : GenEnv)
    (h : (generateMusic env).2 = Except.ok ()) :
    nonDecreasing (progressTrace env) = true := by
  rcases generateMusic_shape env with hs | ⟨m, cps, heq, hne, hall⟩
  · unfold progressTrace startBackgroundRun
    rw [hs]
    simp [successTrace, checkpointWrite, nonDecreasing]
  · rw [heq] at h
    simp at h

/-- C4 witness: the all-success environment yields a monotone progress
trace. -/
theorem progress_monotone_on_success_witness :
    nonDecreasing (progressTrace allOkEnv) = true :=
  progress_monotone_on_success allOkEnv rfl

/-- Helper for C6: a successful cancellation leaves the durable row failed
with the cancellation error message and no output file id. -/
theorem cancel_ok_db_row (st : StoreState) (uenv : UpdEnv) (row : JobRow)
    (hok : (cancelJob st uenv).2 = Except.ok ())
    (hrow : ((cancelJob st uenv).1).db = some row) :
    row.status = Status.failed ∧ row.error_message = some "Job cancelled by user" ∧
    row.output_file_id = none := by
  cases hdbv : st.db with
  | none =>
    have hcj : cancelJob st uenv = (st, Except.error "Job not found") := by
      unfold cancelJob
      rw [hdbv]
    rw [hcj] at hok
    simp at hok
  | some job =>
    by_cases hterm : job.status = Status.completed ∨ job.status = Status.failed
    · have hcj : cancelJob st uenv =
          (st, Except.error "Cannot cancel completed or failed job") := by
        unfold cancelJob
        rw [hdbv]
        simp [hterm]
      rw [hcj] at hok
      simp at hok
    · have hcj : cancelJob st uenv =
          jmUpdateJobStatus st uenv Status.failed job.progress
            (some "Job cancelled by user") none := by
        unfold cancelJob
        rw [hdbv]
        simp [hterm]
      rw [hcj] at hok hrow
      by_cases hdbf : uenv.dbUpdateFails
      · simp [jmUpdateJobStatus, hdbf] at hok
      · by_cases hg : uenv.cacheGetFails
        · simp [jmUpdateJobStatus, hdbf, hg] at hok
        · cases hcv : st.cache with
          | none =>
            simp [jmUpdateJobStatus, hdbf, hg, hcv, hdbv] at hrow
            rw [← hrow]
            simp [dbUpdateJobStatus]
          | some p =>
            obtain ⟨cached, ttl⟩ := p
            by_cases hsf : uenv.cacheSetFails
            · simp [jmUpdateJobStatus, hdbf, hg, hcv, hsf] at hok
            · simp [jmUpdateJobStatus, hdbf, hg, hcv, hsf, hdbv] at hrow
              rw [← hrow]
              simp [dbUpdateJobStatus]

/-- C6: every status write issued over a job's lifetime keeps the
terminal-state exclusivity invariant: a completed write stores the
non-empty fresh output file id and no error message; a failed write —
whether from the pipeline catch, the route's rejection handler, or a
successful cancellation's durable update — stores an error message and no
output file id. -/
theorem terminal_writes_exclusive_artifact_or_error (env : GenEnv)
    (hid : env.freshId ≠ "") :
    (∀ w ∈ startBackgroundRun env,
      (w.status = Status.completed →
        w.errorMessage = none ∧ w.outputFileId = some env.freshId ∧ env.freshId ≠ "") ∧
      (w.status = Status.failed →
        w.outputFileId = none ∧ w.errorMessage ≠ none)) ∧
    (∀ st uenv row, (cancelJob st uenv).2 = Except.ok () →
      ((cancelJob st uenv).1).db = some row →
      row.status = Status.failed ∧ row.error_message = some "Job cancelled by user" ∧
      row.output_file_id = none) := by
  refine ⟨?_, fun st uenv row hok hrow => cancel_ok_db_row st uenv row hok hrow⟩
  rcases generateMusic_shape env with hs | ⟨m, cps, heq, hne, hall⟩
  · have htr : startBackgroundRun env = successTrace env.freshId := by
      unfold startBackgroundRun
      rw [hs]
    rw [htr]
    intro w hw
    simp only [successTrace] at hw
    fin_cases hw <;>
      refine ⟨fun hst => ?_, fun hst => ?_⟩ <;>
      simp [checkpointWrite] at hst ⊢ <;>
      exact hid
  · have htr : startBackgroundRun env = cps ++ [failedWrite m, failedWrite m] := by
      unfold startBackgroundRun
      rw [heq]
      simp
    rw [htr]
    intro w hw
    rcases List.mem_append.mp hw with hw1 | hw1
    · have hp := hall w hw1
      refine ⟨fun hst => ?_, fun hst => ?_⟩ <;> rw [hp] at hst <;> simp at hst
    · have hwf : w = failedWrite m := by
        rcases List.mem_cons.mp hw1 with h1 | h1
        · exact h1
        · simpa using h1
      subst hwf
      refine ⟨fun hst => ?_, fun hst => ?_⟩
      · simp [failedWrite] at hst
      · simp [failedWrite]

/-- C6 witness: the invariant at the all-success environment (non-empty
fresh id). -/
theorem terminal_writes_exclusive_artifact_or_error_witness :
    (∀ w ∈ startBackgroundRun allOkEnv,
      (w.status = Status.completed →
        w.errorMessage = none ∧ w.outputFileId = some allOkEnv.freshId ∧
        allOkEnv.freshId ≠ "") ∧
      (w.status = Status.failed →
        w.outputFileId = none ∧ w.errorMessage ≠ none)) ∧
    (∀ st uenv row, (cancelJob st uenv).2 = Except.ok () →
      ((cancelJob st uenv).1).db = some row →
      row.status = Status.failed ∧ row.error_message = some "Job cancelled by user" ∧
      row.output_file_id = none) :=
  terminal_writes_exclusive_artifact_or_error allOkEnv (by decide)

/-- C8: when the resolver returns at least 1 but fewer than 3 songs, the
resolution stage does not fail: the pipeline proceeds with the resolved
subset, and with every external call succeeding the run produces the full
success trace ending in the completed write at progress 100. -/
theorem partial_resolution_still_completes (env : GenEnv) (songs : List Song)
    (hres : env.resolveResult = Except.ok songs)
    (h1 : 1 ≤ songs.length) (h3 : songs.length < 3)
    (bufs : List Buf) (hdl : downloadMidiFiles env songs = Except.ok bufs)
    (gen : Buf) (hml : env.mlResult = Except.ok gen)
    (mp3 : Buf) (hmp3 : env.mp3Result = Except.ok mp3)
    (outputPath : String) (hsave : env.saveResult = Except.ok outputPath) :
    (generateMusic env).2 = Except.ok () ∧
    startBackgroundRun env = successTrace env.freshId := by
  have hlen : ¬ songs.length = 0 := by omega
  have hgen : generateMusic env = (successTrace env.freshId, Except.ok ()) := by
    unfold generateMusic
    simp [hres, hlen, hdl, hml, hmp3, hsave, successTrace]
  refine ⟨by rw [hgen], ?_⟩
  unfold startBackgroundRun
  rw [hgen]

/-- C8 witness: a two-song resolution (fewer than the 3 requested titles)
still completes with the success trace. -/
theorem partial_resolution_still_completes_witness :
    (generateMusic allOkEnv).2 = Except.ok () ∧
    startBackgroundRun allOkEnv = successTrace allOkEnv.freshId :=
  partial_resolution_still_completes allOkEnv [fugueV1, fugueV2] rfl (by decide) (by decide)
    [0, 0] rfl 1 rfl 2 rfl "outpath" rfl

end Orpheus
